import Mathlib

/-!
Verification of the technical-indicator and trend-change detection engine of
perso-cb-lite (package client: technical.go, client.go, orders.go).

Modelling conventions.  Go float64 arithmetic is embedded as exact rational
arithmetic over the type Rat: the code performs only additions,
subtractions, multiplications, divisions and order comparisons, all of which
the rationals represent exactly on the inputs considered.  Division in Rat is
total with x / 0 = 0; wherever a claim is about a division by zero actually
reached by the Go code, a separate checked variant returning Option is used,
whose value is none exactly on the runs where Go would divide by zero.
Stateful code (the trend state machine) is embedded as explicit state
passing; the current wall-clock time is an explicit parameter in seconds.
Concurrency (the fan-in aggregator of technical.go) is embedded by
quantifying over the list of results in their arrival order.
-/

/-- Mirrors struct TechnicalIndicators of types.go (fields used by the
engine; the Go zero value has every numeric field 0 and VolumeSpike false). -/
structure TechnicalIndicators where
  macd : ℚ := 0
  signalLine : ℚ := 0
  ema12 : ℚ := 0
  ema26 : ℚ := 0
  ema200 : ℚ := 0
  rsi : ℚ := 0
  adx : ℚ := 0
  priceDropPct12h : ℚ := 0
  volumeSpike : Bool := false
  currentPrice : ℚ := 0
  averageVolume : ℚ := 0
  lastVolume : ℚ := 0
  deriving Repr, DecidableEq

/-- Mirrors struct Candle of types.go restricted to the four numeric fields
the indicator engine reads (Close, High, Low, Volume); Start and Open are
never read by the modelled code and are omitted. -/
structure Candle where
  low : ℚ := 0
  high : ℚ := 0
  close : ℚ := 0
  volume : ℚ := 0
  deriving Repr, DecidableEq

/-- Mirrors calculateEMA of technical.go: seed with the simple average of the
first period values, then fold the recurrence ema = p*k + ema*(1-k) with
k = 2/(period+1) over the remaining values; 0 when the series is shorter
than the period. -/
def calculateEMA (prices : List ℚ) (period : ℕ) : ℚ :=
  if prices.length < period then 0
  else
    let multiplier : ℚ := 2 / (period + 1)
    let seed := (prices.take period).sum / period
    (prices.drop period).foldl
      (fun ema p => p * multiplier + ema * (1 - multiplier)) seed

/-- Mirrors calculateMACD of technical.go: MACD = EMA12 - EMA26 of the whole
series, and the signal line is the EMA9 of the MACD values recomputed on
every prefix prices[:i+1] for i from 26 to the end. -/
def calculateMACD (prices : List ℚ) : ℚ × ℚ :=
  if prices.length < 26 then (0, 0)
  else
    let ema12 := calculateEMA prices 12
    let ema26 := calculateEMA prices 26
    let macd := ema12 - ema26
    let macdValues := (List.range (prices.length - 26)).map (fun j =>
      let window := prices.take (26 + j + 1)
      calculateEMA window 12 - calculateEMA window 26)
    (macd, calculateEMA macdValues 9)

/-- Mirrors calculateRSI of technical.go: initial average gain and loss over
the first period deltas, early 100 when the initial losses are 0, Wilder
smoothing over the remaining deltas, then 100 - 100/(1+rs); neutral 50 when
the series is shorter than period+1. -/
def calculateRSI (prices : List ℚ) (period : ℕ) : ℚ :=
  if prices.length < period + 1 then 50
  else
    let changes := List.zipWith (fun a b => a - b) (prices.drop 1) prices
    let firstChanges := changes.take period
    let gains := (firstChanges.map (fun c => if c > 0 then c else 0)).sum
    let losses := (firstChanges.map (fun c => if c > 0 then 0 else -c)).sum
    if losses = 0 then 100
    else
      let multiplier : ℚ := 1 / period
      let avg0 : ℚ × ℚ := (gains / period, losses / period)
      let avg := (changes.drop period).foldl
        (fun a c =>
          (a.1 * (1 - multiplier) + (if c > 0 then c else 0) * multiplier,
           a.2 * (1 - multiplier) + (if c > 0 then 0 else -c) * multiplier))
        avg0
      if avg.2 = 0 then 100
      else 100 - 100 / (1 + avg.1 / avg.2)

/-- The accumulated True Range of calculateADX of technical.go: the sum over
i = 1..period of max(high[i]-low[i], abs(high[i]-high[i-1]),
abs(low[i]-low[i-1])). -/
def adxTrueRange (highs lows : List ℚ) (period : ℕ) : ℚ :=
  ((List.range period).map (fun j =>
    let i := j + 1
    let tr1 := highs.getD i 0 - lows.getD i 0
    let tr2 := |highs.getD i 0 - highs.getD (i - 1) 0|
    let tr3 := |lows.getD i 0 - lows.getD (i - 1) 0|
    max tr1 (max tr2 tr3))).sum

/-- The accumulated plus directional movement of calculateADX of
technical.go: upMove summed whenever upMove > downMove and upMove > 0. -/
def adxPlusDM (highs lows : List ℚ) (period : ℕ) : ℚ :=
  ((List.range period).map (fun j =>
    let i := j + 1
    let upMove := highs.getD i 0 - highs.getD (i - 1) 0
    let downMove := lows.getD (i - 1) 0 - lows.getD i 0
    if upMove > downMove ∧ upMove > 0 then upMove else 0)).sum

/-- The accumulated minus directional movement of calculateADX of
technical.go: downMove summed whenever downMove > upMove and downMove > 0. -/
def adxMinusDM (highs lows : List ℚ) (period : ℕ) : ℚ :=
  ((List.range period).map (fun j =>
    let i := j + 1
    let upMove := highs.getD i 0 - highs.getD (i - 1) 0
    let downMove := lows.getD (i - 1) 0 - lows.getD i 0
    if downMove > upMove ∧ downMove > 0 then downMove else 0)).sum

/-- Mirrors calculateADX of technical.go: a single-window directional index;
returns 0 when either series is shorter than period+1 or the True Range is 0,
else abs(plusDI-minusDI)/(plusDI+minusDI)*100 with
plusDI = plusDM/trueRange*100 and minusDI = minusDM/trueRange*100.
The final division is written with total rational division; the checked
variant calculateADXChecked below records where Go divides by zero. -/
def calculateADX (highs lows : List ℚ) (period : ℕ) : ℚ :=
  if highs.length < period + 1 ∨ lows.length < period + 1 then 0
  else
    let trueRange := adxTrueRange highs lows period
    if trueRange = 0 then 0
    else
      let plusDI := adxPlusDM highs lows period / trueRange * 100
      let minusDI := adxMinusDM highs lows period / trueRange * 100
      |plusDI - minusDI| / (plusDI + minusDI) * 100

/-- Mirrors calculatePriceDropPct of technical.go: percent change between the
last price and the price period entries before it, 0 when the series is too
short or the old price is 0. -/
def calculatePriceDropPct (prices : List ℚ) (period : ℕ) : ℚ :=
  if prices.length < period + 1 then 0
  else
    let oldPrice := prices.getD (prices.length - period - 1) 0
    let newPrice := prices.getD (prices.length - 1) 0
    if oldPrice = 0 then 0
    else (newPrice - oldPrice) / oldPrice * 100

/-- Mirrors detectVolumeSpike of technical.go: (spike, averageVolume,
lastVolume) where averageVolume is the mean of all volumes except the last
and spike holds when lastVolume is strictly greater than twice that mean;
(false, 0, 0) for fewer than two volumes. -/
def detectVolumeSpike (volumes : List ℚ) : Bool × ℚ × ℚ :=
  if volumes.length < 2 then (false, 0, 0)
  else
    let lastVolume := volumes.getD (volumes.length - 1) 0
    let sum := (volumes.take (volumes.length - 1)).sum
    let averageVolume := sum / ((volumes.length - 1 : ℕ) : ℚ)
    (decide (lastVolume > averageVolume * 2), averageVolume, lastVolume)

/-- Guarded division: none exactly when the divisor is zero, i.e. on the runs
where the Go float division has a zero divisor. -/
def qdiv? (a b : ℚ) : Option ℚ := if b = 0 then none else some (a / b)

/-- calculateADX of technical.go with every division it performs made
explicit through qdiv?: the result is none exactly when the Go code reaches
a division whose divisor is zero.  The two DI divisions are guarded by the
trueRange = 0 early return of the source; the final dx division by
plusDI + minusDI has no guard in the source and is represented as a bare
qdiv?. -/
def calculateADXChecked (highs lows : List ℚ) (period : ℕ) : Option ℚ :=
  if highs.length < period + 1 ∨ lows.length < period + 1 then some 0
  else
    let trueRange := adxTrueRange highs lows period
    if trueRange = 0 then some 0
    else do
      let p ← qdiv? (adxPlusDM highs lows period) trueRange
      let m ← qdiv? (adxMinusDM highs lows period) trueRange
      let plusDI := p * 100
      let minusDI := m * 100
      let dx ← qdiv? |plusDI - minusDI| (plusDI + minusDI)
      some (dx * 100)

/-- calculatePriceDropPct of technical.go with its single division made
explicit through qdiv?: none exactly when Go would divide by zero (the
source checks oldPrice = 0 before dividing). -/
def calculatePriceDropPctChecked (prices : List ℚ) (period : ℕ) : Option ℚ :=
  if prices.length < period + 1 then some 0
  else
    let oldPrice := prices.getD (prices.length - period - 1) 0
    let newPrice := prices.getD (prices.length - 1) 0
    if oldPrice = 0 then some 0
    else do
      let r ← qdiv? (newPrice - oldPrice) oldPrice
      some (r * 100)

/-- detectVolumeSpike of technical.go with its single division made explicit
through qdiv?: none exactly when Go would divide by zero (the divisor is
len(volumes)-1 behind the len(volumes) < 2 early return). -/
def detectVolumeSpikeChecked (volumes : List ℚ) : Option (Bool × ℚ × ℚ) :=
  if volumes.length < 2 then some (false, 0, 0)
  else
    let lastVolume := volumes.getD (volumes.length - 1) 0
    let sum := (volumes.take (volumes.length - 1)).sum
    do
      let averageVolume ← qdiv? sum ((volumes.length - 1 : ℕ) : ℚ)
      some (decide (lastVolume > averageVolume * 2), averageVolume, lastVolume)

/-- The mean of all entries of a volume series except the last, as the spec
phrases it (mean(allVolumesExceptLast)). -/
def meanExceptLast (vs : List ℚ) : ℚ :=
  vs.dropLast.sum / ((vs.length - 1 : ℕ) : ℚ)

/-- The MACD block of calculateBearishScore of client.go. -/
def bearishMACDComponent (ind : TechnicalIndicators) : ℚ :=
  if ind.macd < ind.signalLine then
    if ind.macd < -0.1 then 2.0 + |ind.macd - ind.signalLine| * 10 else 1.5
  else 0

/-- The EMA crossover block of calculateBearishScore of client.go. -/
def bearishEMAComponent (ind : TechnicalIndicators) : ℚ :=
  if ind.ema12 < ind.ema26 then
    2.0 + (ind.ema26 - ind.ema12) / ind.ema26 * 100 * 0.1
  else 0

/-- The RSI block of calculateBearishScore of client.go. -/
def bearishRSIComponent (ind : TechnicalIndicators) : ℚ :=
  if ind.rsi < 40 then (if ind.rsi < 30 then 2.0 else 1.5)
  else if ind.rsi < 45 then 0.5
  else 0

/-- The price drop block of calculateBearishScore of client.go. -/
def bearishPriceComponent (ind : TechnicalIndicators) : ℚ :=
  if ind.priceDropPct12h < 0 then
    let dropStrength := |ind.priceDropPct12h|
    if dropStrength > 5 then 2.0
    else if dropStrength > 3 then 1.5
    else if dropStrength > 1 then 0.5
    else 0
  else 0

/-- The price versus EMA200 block of calculateBearishScore of client.go. -/
def bearishEMA200Component (ind : TechnicalIndicators) : ℚ :=
  if ind.currentPrice < ind.ema200 then
    let ema200Strength := (ind.ema200 - ind.currentPrice) / ind.ema200 * 100
    if ind.rsi < 40 then 1.5 + ema200Strength * 0.1
    else 1.0 + ema200Strength * 0.05
  else 0

/-- The ADX block of calculateBearishScore of client.go. -/
def bearishADXComponent (ind : TechnicalIndicators) : ℚ :=
  if ind.adx > 25 then (if ind.macd < ind.signalLine then 1.5 else 0.5)
  else 0

/-- The volume confirmation block of calculateBearishScore of client.go. -/
def bearishVolumeComponent (ind : TechnicalIndicators) : ℚ :=
  if ind.volumeSpike ∧ ind.priceDropPct12h < -2 then 0.5 else 0

/-- Mirrors calculateBearishScore of client.go: the sum of its seven
sequential score increments, each of which reads only the indicator set. -/
def calculateBearishScore (ind : TechnicalIndicators) : ℚ :=
  bearishMACDComponent ind + bearishEMAComponent ind + bearishRSIComponent ind
    + bearishPriceComponent ind + bearishEMA200Component ind
    + bearishADXComponent ind + bearishVolumeComponent ind

/-- The MACD block of calculateBullishScore of client.go. -/
def bullishMACDComponent (ind : TechnicalIndicators) : ℚ :=
  if ind.macd > ind.signalLine then
    if ind.macd > 0.1 then 2.0 + |ind.macd - ind.signalLine| * 10 else 1.5
  else 0

/-- The EMA crossover block of calculateBullishScore of client.go. -/
def bullishEMAComponent (ind : TechnicalIndicators) : ℚ :=
  if ind.ema12 > ind.ema26 then
    2.0 + (ind.ema12 - ind.ema26) / ind.ema26 * 100 * 0.1
  else 0

/-- The RSI block of calculateBullishScore of client.go. -/
def bullishRSIComponent (ind : TechnicalIndicators) : ℚ :=
  if ind.rsi > 60 then (if ind.rsi > 70 then 2.0 else 1.5)
  else if ind.rsi > 55 then 0.5
  else 0

/-- The price gain block of calculateBullishScore of client.go. -/
def bullishPriceComponent (ind : TechnicalIndicators) : ℚ :=
  if ind.priceDropPct12h > 0 then
    let gainStrength := ind.priceDropPct12h
    if gainStrength > 5 then 2.0
    else if gainStrength > 3 then 1.5
    else if gainStrength > 1 then 0.5
    else 0
  else 0

/-- The price versus EMA200 block of calculateBullishScore of client.go. -/
def bullishEMA200Component (ind : TechnicalIndicators) : ℚ :=
  if ind.currentPrice > ind.ema200 then
    let ema200Strength := (ind.currentPrice - ind.ema200) / ind.ema200 * 100
    if ind.rsi > 60 then 1.5 + ema200Strength * 0.1
    else 1.0 + ema200Strength * 0.05
  else 0

/-- The ADX block of calculateBullishScore of client.go. -/
def bullishADXComponent (ind : TechnicalIndicators) : ℚ :=
  if ind.adx > 25 then (if ind.macd > ind.signalLine then 1.5 else 0.5)
  else 0

/-- The volume confirmation block of calculateBullishScore of client.go. -/
def bullishVolumeComponent (ind : TechnicalIndicators) : ℚ :=
  if ind.volumeSpike ∧ ind.priceDropPct12h > 2 then 0.5 else 0

/-- Mirrors calculateBullishScore of client.go: the sum of its seven
sequential score increments. -/
def calculateBullishScore (ind : TechnicalIndicators) : ℚ :=
  bullishMACDComponent ind + bullishEMAComponent ind + bullishRSIComponent ind
    + bullishPriceComponent ind + bullishEMA200Component ind
    + bullishADXComponent ind + bullishVolumeComponent ind

/-- Mirrors determineTrendState of client.go: bearish when the bearish score
reaches 7.0, else bullish when the bullish score reaches 7.0, else
neutral. -/
def determineTrendState (ind : TechnicalIndicators) : String :=
  if calculateBearishScore ind ≥ 7.0 then "bearish"
  else if calculateBullishScore ind ≥ 7.0 then "bullish"
  else "neutral"

/-- Mirrors calculateTriggers of client.go: the trigger codes appended by the
bearish branch or the bullish branch, in source order. -/
def calculateTriggers (ind : TechnicalIndicators) (trend : String) : List String :=
  if trend = "bearish" then
    (if ind.macd < ind.signalLine ∧ ind.macd < 0 then ["MACD_BEARISH_CROSSOVER"] else [])
    ++ (if ind.ema12 < ind.ema26 then ["EMA_BEARISH_CROSSOVER"] else [])
    ++ (if ind.rsi < 40 then ["RSI_MOMENTUM_BREAKDOWN"] else [])
    ++ (if ind.priceDropPct12h < -5 then ["PRICE_TREND_REVERSAL"] else [])
    ++ (if ind.currentPrice < ind.ema200 ∧ ind.rsi < 45 then ["MAJOR_TREND_BREAKDOWN"] else [])
  else if trend = "bullish" then
    (if ind.macd > ind.signalLine ∧ ind.macd > 0 then ["MACD_BULLISH_CROSSOVER"] else [])
    ++ (if ind.ema12 > ind.ema26 then ["EMA_BULLISH_CROSSOVER"] else [])
    ++ (if ind.rsi > 60 then ["RSI_MOMENTUM_BUILDUP"] else [])
    ++ (if ind.priceDropPct12h > 5 then ["PRICE_TREND_REVERSAL"] else [])
    ++ (if ind.currentPrice > ind.ema200 ∧ ind.rsi > 55 then ["MAJOR_TREND_BREAKOUT"] else [])
  else []

/-- The price drop block of detectImmediateDip of client.go: score increment
and trigger codes appended by that block. -/
def dipPriceBlock (ind : TechnicalIndicators) : ℚ × List String :=
  if ind.priceDropPct12h < -3 then
    let dropStrength := |ind.priceDropPct12h|
    if dropStrength > 7 then (3.0, ["STRONG_PRICE_DROP"])
    else if dropStrength > 5 then (2.0, ["IMMEDIATE_PRICE_DROP"])
    else (1.0, [])
  else (0, [])

/-- The RSI oversold block of detectImmediateDip of client.go. -/
def dipRSIBlock (ind : TechnicalIndicators) : ℚ × List String :=
  if ind.rsi < 35 then
    if ind.rsi < 25 then (2.5, ["EXTREME_RSI_OVERSOLD"])
    else (1.5, ["RSI_OVERSOLD"])
  else (0, [])

/-- The MACD block of detectImmediateDip of client.go. -/
def dipMACDBlock (ind : TechnicalIndicators) : ℚ × List String :=
  if ind.macd < ind.signalLine then
    let macdStrength := |ind.macd - ind.signalLine|
    if ind.macd < -0.15 then (2.5 + macdStrength * 10, ["STRONG_MACD_BEARISH"])
    else if ind.macd < -0.05 then (2.0, ["MACD_BEARISH_CROSSOVER"])
    else (1.0, [])
  else (0, [])

/-- The EMA crossover block of detectImmediateDip of client.go. -/
def dipEMABlock (ind : TechnicalIndicators) : ℚ × List String :=
  if ind.ema12 < ind.ema26 then
    let emaStrength := (ind.ema26 - ind.ema12) / ind.ema26 * 100
    (2.0 + emaStrength * 0.1, ["EMA_BEARISH_CROSSOVER"])
  else (0, [])

/-- The volume spike with drop block of detectImmediateDip of client.go. -/
def dipVolumeBlock (ind : TechnicalIndicators) : ℚ × List String :=
  if ind.volumeSpike ∧ ind.priceDropPct12h < -2 then (1.0, ["VOLUME_SPIKE_WITH_DROP"])
  else (0, [])

/-- The ADX momentum block of detectImmediateDip of client.go. -/
def dipADXBlock (ind : TechnicalIndicators) : ℚ × List String :=
  if ind.adx > 25 ∧ ind.macd < ind.signalLine then (1.5, ["STRONG_BEARISH_MOMENTUM"])
  else (0, [])

/-- The price below EMA200 block of detectImmediateDip of client.go. -/
def dipEMA200Block (ind : TechnicalIndicators) : ℚ × List String :=
  if ind.currentPrice < ind.ema200 ∧ ind.rsi < 40 then
    let ema200Strength := (ind.ema200 - ind.currentPrice) / ind.ema200 * 100
    (1.0 + ema200Strength * 0.05, ["BELOW_EMA200_WITH_MOMENTUM"])
  else (0, [])

/-- The weighted dip score of detectImmediateDip of client.go: the sum of the
seven sequential score increments. -/
def dipScore (ind : TechnicalIndicators) : ℚ :=
  (dipPriceBlock ind).1 + (dipRSIBlock ind).1 + (dipMACDBlock ind).1
    + (dipEMABlock ind).1 + (dipVolumeBlock ind).1 + (dipADXBlock ind).1
    + (dipEMA200Block ind).1

/-- The trigger list accumulated by detectImmediateDip of client.go, in
source append order. -/
def dipTriggers (ind : TechnicalIndicators) : List String :=
  (dipPriceBlock ind).2 ++ (dipRSIBlock ind).2 ++ (dipMACDBlock ind).2
    ++ (dipEMABlock ind).2 ++ (dipVolumeBlock ind).2 ++ (dipADXBlock ind).2
    ++ (dipEMA200Block ind).2

/-- Mirrors detectImmediateDip of client.go: (true, triggers) when the dip
score reaches 6.0, else (false, nil). -/
def detectImmediateDip (ind : TechnicalIndicators) : Bool × List String :=
  if dipScore ind ≥ 6.0 then (true, dipTriggers ind) else (false, [])

/-- The mutable trend tracking fields of CoinbaseClient of client.go:
lastTrendState and lastSignalTime (seconds). -/
structure TrendState where
  lastTrendState : String
  lastSignalTime : ℚ
  deriving Repr, DecidableEq

/-- The outcome of one call of detectTrendChange of client.go: whether a
signal event is emitted, the returned trend, the returned triggers, and the
client state after the call. -/
structure DetectResult where
  emitted : Bool
  trend : String
  triggers : List String
  state : TrendState
  deriving Repr, DecidableEq

/-- The trend transition logic of detectTrendChange of client.go (the part
after the immediate dip check): first transition out of neutral with no
cooldown, transition between distinct non-neutral states under the 8 minute
cooldown, no-op otherwise. -/
def trendChangeStep (st : TrendState) (now : ℚ) (ind : TechnicalIndicators)
    (currentTrend : String) : DetectResult :=
  if st.lastTrendState = "neutral" then
    if currentTrend ≠ "neutral" then
      ⟨true, currentTrend, calculateTriggers ind currentTrend, ⟨currentTrend, now⟩⟩
    else ⟨false, currentTrend, [], st⟩
  else if currentTrend ≠ st.lastTrendState ∧ currentTrend ≠ "neutral" then
    if now - st.lastSignalTime < 8 * 60 then ⟨false, currentTrend, [], st⟩
    else ⟨true, currentTrend, calculateTriggers ind currentTrend, ⟨currentTrend, now⟩⟩
  else ⟨false, currentTrend, [], st⟩

/-- Mirrors detectTrendChange of client.go: the immediate dip path is checked
first under its own 5 minute cooldown against lastSignalTime; when it fires
it returns a bearish event with the dip triggers and sets lastSignalTime to
now without touching lastTrendState; when the dip is suppressed by its
cooldown, or no dip is detected, control falls through to the trend
transition logic. -/
def detectTrendChange (st : TrendState) (now : ℚ) (ind : TechnicalIndicators) :
    DetectResult :=
  let currentTrend := determineTrendState ind
  let dip := detectImmediateDip ind
  if dip.1 then
    if now - st.lastSignalTime < 5 * 60 then trendChangeStep st now ind currentTrend
    else ⟨true, "bearish", dip.2, ⟨st.lastTrendState, now⟩⟩
  else trendChangeStep st now ind currentTrend

/-- One message on the fan-in result channel of
calculateTechnicalIndicatorsParallel of technical.go: a named indicator
value as published by one of the producer goroutines. -/
inductive IndicatorResult where
  | macd (v : ℚ)
  | signalLine (v : ℚ)
  | ema12 (v : ℚ)
  | ema26 (v : ℚ)
  | ema200 (v : ℚ)
  | rsi (v : ℚ)
  | adx (v : ℚ)
  | priceDropPct12h (v : ℚ)
  | volumeSpike (b : Bool)
  | averageVolume (v : ℚ)
  | lastVolume (v : ℚ)
  deriving Repr, DecidableEq

/-- The switch statement of the stream processor of
calculateTechnicalIndicatorsParallel of technical.go: store one received
result into the indicator set under construction. -/
def applyResult (ind : TechnicalIndicators) : IndicatorResult → TechnicalIndicators
  | .macd v => { ind with macd := v }
  | .signalLine v => { ind with signalLine := v }
  | .ema12 v => { ind with ema12 := v }
  | .ema26 v => { ind with ema26 := v }
  | .ema200 v => { ind with ema200 := v }
  | .rsi v => { ind with rsi := v }
  | .adx v => { ind with adx := v }
  | .priceDropPct12h v => { ind with priceDropPct12h := v }
  | .volumeSpike b => { ind with volumeSpike := b }
  | .averageVolume v => { ind with averageVolume := v }
  | .lastVolume v => { ind with lastVolume := v }

/-- Mirrors checkBearishSignals of technical.go: the appended trigger codes
in source order, and the boolean len(triggers) > 0. -/
def checkBearishSignals (ind : TechnicalIndicators) : Bool × List String :=
  let bearishCount : ℕ :=
    (if ind.macd < ind.signalLine then 1 else 0)
    + (if ind.ema12 < ind.ema26 then 1 else 0)
    + (if ind.rsi < 45 then 1 else 0)
    + (if ind.currentPrice < ind.ema200 then 1 else 0)
  let triggers :=
    (if ind.macd < ind.signalLine ∧ ind.macd < 0 then ["MACD_BEARISH_CROSSOVER"] else [])
    ++ (if ind.ema12 < ind.ema26 then ["EMA_BEARISH_CROSSOVER"] else [])
    ++ (if ind.rsi < 40 ∧ ind.rsi < 50 then ["RSI_MOMENTUM_BREAKDOWN"] else [])
    ++ (if ind.priceDropPct12h < -5 then ["PRICE_TREND_REVERSAL"] else [])
    ++ (if ind.currentPrice < ind.ema200 ∧ ind.rsi < 45 then ["MAJOR_TREND_BREAKDOWN"] else [])
    ++ (if ind.adx > 25 ∧ ind.macd < ind.signalLine ∧ ind.volumeSpike then ["STRONG_BEARISH_TREND"] else [])
    ++ (if bearishCount ≥ 3 then ["MULTIPLE_BEARISH_SIGNALS"] else [])
  (decide (0 < triggers.length), triggers)

/-- The stream processor loop of calculateTechnicalIndicatorsParallel of
technical.go, consuming the channel results in their arrival order: each
result is stored, the completedIndicators counter is incremented while below
totalIndicators = 8, and once the counter has reached 4 the bearish check is
evaluated on the partial indicator set; a positive check cancels the
remaining producers and returns the partial set at once (second component
true); an exhausted channel returns the accumulated set (second component
false). -/
def aggregateResults (ind : TechnicalIndicators) (completed : ℕ) :
    List IndicatorResult → TechnicalIndicators × Bool
  | [] => (ind, false)
  | r :: rest =>
    let ind2 := applyResult ind r
    let completed2 := if completed < 8 then completed + 1 else completed
    if 4 ≤ completed2 ∧ (checkBearishSignals ind2).1 = true then (ind2, true)
    else aggregateResults ind2 completed2 rest

/-- Mirrors calculateTechnicalIndicatorsParallel of technical.go as a
function of the candle window and of the arrival order of the producer
results: fewer than 50 candles yield the zero indicator set immediately;
otherwise the stream processor starts from a set holding only CurrentPrice
(the last close) and consumes the arrivals. -/
def calcIndicatorsFromCandles (candles : List Candle)
    (arrivals : List IndicatorResult) : TechnicalIndicators × Bool :=
  if candles.length < 50 then ({}, false)
  else
    let prices := candles.map (fun c => c.close)
    aggregateResults { currentPrice := prices.getD (prices.length - 1) 0 } 0 arrivals

/-- The value each producer goroutine of
calculateTechnicalIndicatorsParallel of technical.go publishes for its named
result, computed from the extracted price, high, low and volume series: an
arrival list is faithful to one evaluation call when every element satisfies
this predicate. -/
def resultCorrect (prices highs lows volumes : List ℚ) :
    IndicatorResult → Prop
  | .macd v => v = (calculateMACD prices).1
  | .signalLine v => v = (calculateMACD prices).2
  | .ema12 v => v = calculateEMA prices 12
  | .ema26 v => v = calculateEMA prices 26
  | .ema200 v => v = calculateEMA prices 200
  | .rsi v => v = calculateRSI prices 14
  | .adx v => v = calculateADX highs lows 14
  | .priceDropPct12h v => v = calculatePriceDropPct prices 144
  | .volumeSpike b => b = (detectVolumeSpike volumes).1
  | .averageVolume v => v = (detectVolumeSpike volumes).2.1
  | .lastVolume v => v = (detectVolumeSpike volumes).2.2

/-- The retry loop of SendWebhook of client.go, driven by an oracle telling
which attempt numbers fail: given the attempt counter and the number of
loop iterations still allowed (maxRetries + 1 - attempt), returns the number
of delivery attempts performed, the list of waited backoff delays in
seconds between consecutive attempts, and whether delivery succeeded.  A
successful attempt returns at once; a failing attempt at the last allowed
iteration gives up; otherwise the loop sleeps 1s * 2^attempt and retries. -/
def webhookAttempts (fails : ℕ → Bool) (attempt : ℕ) : ℕ → ℕ × List ℕ × Bool
  | 0 => (0, [], false)
  | remaining + 1 =>
    if fails attempt = false then (1, [], true)
    else if remaining = 0 then (1, [], false)
    else
      let rec2 := webhookAttempts fails (attempt + 1) remaining
      (rec2.1 + 1, 2 ^ attempt :: rec2.2.1, rec2.2.2)

/-- Mirrors the attempt loop of SendWebhook of client.go: attempts run for
attempt = 0 .. maxRetries. -/
def sendWebhookRun (maxRetries : ℕ) (fails : ℕ → Bool) : ℕ × List ℕ × Bool :=
  webhookAttempts fails 0 (maxRetries + 1)

/-- An indicator set on which the immediate dip path fires (dip score 6.5)
while the weighted trend label is neutral (bearish score 4.5, bullish score
0): a 12 hour drop of 8 percent, RSI 20 and a volume spike, with MACD, the
EMAs and ADX flat. -/
def dipNeutralInd : TechnicalIndicators :=
  { priceDropPct12h := -8, rsi := 20, ema12 := 5, ema26 := 5, ema200 := 10,
    currentPrice := 10, volumeSpike := true }

/-- An indicator set on which both the immediate dip path fires and the
weighted trend label is bearish: strongly negative MACD, oversold RSI, an 8
percent drop, a bearish EMA crossover, strong ADX and a volume spike. -/
def dipBearishInd : TechnicalIndicators :=
  { macd := -1, signalLine := 0, rsi := 20, priceDropPct12h := -8, ema12 := 5,
    ema26 := 6, currentPrice := 10, ema200 := 10, adx := 30, volumeSpike := true }

/-- An indicator set whose weighted trend label is bearish (bearish score
7.6) while the immediate dip path does not fire (dip score 4.6): a mild MACD
crossover, RSI 42, a 2.5 percent drop, price below EMA200 and strong ADX. -/
def bearishNoDipInd : TechnicalIndicators :=
  { macd := -0.05, signalLine := 0, ema12 := 99, ema26 := 100, rsi := 42,
    priceDropPct12h := -2.5, currentPrice := 90, ema200 := 100, adx := 30,
    volumeSpike := false }

/-- The full set of producer results of one evaluation call, arriving in the
order macd, signalLine, ema12, ema26, rsi, ema200, adx, priceDropPct12h,
volumeSpike, averageVolume, lastVolume (consistent with the per goroutine
send order of technical.go). -/
def c1OrderA : List IndicatorResult :=
  [.macd 1, .signalLine 0, .ema12 2, .ema26 1, .rsi 50, .ema200 0, .adx 0,
   .priceDropPct12h 0, .volumeSpike false, .averageVolume 1, .lastVolume 1]

/-- The same result set as c1OrderA with the rsi result arriving first
instead of fifth (also consistent with the per goroutine send order). -/
def c1OrderB : List IndicatorResult :=
  [.rsi 50, .macd 1, .signalLine 0, .ema12 2, .ema26 1, .ema200 0, .adx 0,
   .priceDropPct12h 0, .volumeSpike false, .averageVolume 1, .lastVolume 1]

/-- The stream processor start state of an evaluation whose last close is
10: only CurrentPrice is populated. -/
def c1Init : TechnicalIndicators := { currentPrice := 10 }

/-- Strictly increasing highs and lows for which calculateADX reaches its
final division with a nonzero divisor. -/
def adxRisingSeries : List ℚ :=
  [0, 1, 2, 3, 4, 5, 6, 7, 8, 9, 10, 11, 12, 13, 14]

/-- A 50 candle flat window used to instantiate the lightweight evaluation
theorems. -/
def flatCandles : List Candle :=
  List.replicate 50 { low := 1, high := 1, close := 1, volume := 1 }

/-- Helper: the spike flag of detectVolumeSpike is exactly the strict
comparison of the last volume against twice the mean of the other
volumes. -/
theorem detectVolumeSpike_spec (vs : List ℚ) (h : 2 ≤ vs.length) :
    ((detectVolumeSpike vs).1 = true
      ↔ meanExceptLast vs * 2 < vs.getD (vs.length - 1) 0) := by
  unfold detectVolumeSpike meanExceptLast
  rw [if_neg (by omega)]
  rw [List.dropLast_eq_take]
  simp [decide_eq_true_iff]

/-- Helper: detectVolumeSpike on a series with an appended last volume x
compares x against twice the mean of the original series. -/
theorem detectVolumeSpike_append (rest : List ℚ) (x : ℚ) (h : rest ≠ []) :
    (detectVolumeSpike (rest ++ [x])).1
      = decide (rest.sum / (rest.length : ℚ) * 2 < x) := by
  have hpos : 0 < rest.length := List.length_pos.mpr h
  unfold detectVolumeSpike
  rw [if_neg (by simp; omega)]
  simp

/-- C9 counterexample: the two-entry zero-volume series has its last volume
equal to 2.01 times the mean of the rest, yet detectVolumeSpike reports no
spike, refuting the claim that such an input always yields true. -/
theorem C9_counterexample :
    (detectVolumeSpike [(0 : ℚ), 0]).2.2 = 2.01 * meanExceptLast [(0 : ℚ), 0]
    ∧ (detectVolumeSpike [(0 : ℚ), 0]).1 = false := by
  norm_num [detectVolumeSpike, meanExceptLast]

/-- C9 (amended): for every volume series of length at least 2 the spike
flag holds exactly when the last volume strictly exceeds twice the mean of
all volumes except the last; and whenever that mean is positive, a last
volume of 2.01 times the mean yields true while exactly 2.0 times the mean
yields false. -/
theorem C9_amended_holds :
    (∀ vs : List ℚ, 2 ≤ vs.length →
      ((detectVolumeSpike vs).1 = true
        ↔ meanExceptLast vs * 2 < vs.getD (vs.length - 1) 0))
    ∧ (∀ rest : List ℚ, rest ≠ [] → 0 < rest.sum / (rest.length : ℚ) →
      (detectVolumeSpike (rest ++ [2.01 * (rest.sum / (rest.length : ℚ))])).1 = true
      ∧ (detectVolumeSpike (rest ++ [2 * (rest.sum / (rest.length : ℚ))])).1 = false) := by
  refine ⟨detectVolumeSpike_spec, ?_⟩
  intro rest h hm
  constructor
  · rw [detectVolumeSpike_append rest _ h]
    have hlt : rest.sum / (rest.length : ℚ) * 2
        < 2.01 * (rest.sum / (rest.length : ℚ)) := by nlinarith
    simp [hlt]
  · rw [detectVolumeSpike_append rest _ h]
    have hnlt : ¬ rest.sum / (rest.length : ℚ) * 2
        < 2 * (rest.sum / (rest.length : ℚ)) := by
      intro hc; nlinarith
    simp [hnlt]

/-- C9 witness: the characterization and the amended boundary facts
instantiated at concrete volume series with positive mean. -/
theorem C9_witness :
    ((detectVolumeSpike [(100 : ℚ), 201]).1 = true
      ↔ meanExceptLast [(100 : ℚ), 201] * 2 < [(100 : ℚ), 201].getD 1 0)
    ∧ (detectVolumeSpike ([(100 : ℚ)]
        ++ [2.01 * ([(100 : ℚ)].sum / (([(100 : ℚ)].length : ℕ) : ℚ))])).1 = true
    ∧ (detectVolumeSpike ([(100 : ℚ)]
        ++ [2 * ([(100 : ℚ)].sum / (([(100 : ℚ)].length : ℕ) : ℚ))])).1 = false := by
  have h1 := C9_amended_holds.1 [(100 : ℚ), 201] (by decide)
  have h2 := C9_amended_holds.2 [(100 : ℚ)] (by decide) (by norm_num)
  exact ⟨by simpa using h1, by simpa using h2.1, by simpa using h2.2⟩

/-- C2 counterexample: on fifteen candles with constant high 2 and constant
low 1 the True Range is 14 but both directional movements are 0, so
calculateADX reaches its final division with divisor plusDI + minusDI = 0:
the division is not preceded by a zero check, refuting the claim. -/
theorem C2_counterexample :
    calculateADXChecked (List.replicate 15 (2 : ℚ)) (List.replicate 15 (1 : ℚ)) 14
      = none := by
  norm_num [calculateADXChecked, adxTrueRange, adxPlusDM, adxMinusDM, qdiv?,
    List.range_succ]

/-- C2 (amended): every division of calculatePriceDropPct and
detectVolumeSpike is guarded and never divides by zero, and the two DI
divisions of calculateADX are guarded by the True Range check; but the final
dx division of calculateADX by plusDI + minusDI has no zero check and does
divide by zero on constant-range input, where Go produces NaN rather than an
error. -/
theorem C2_amended_holds :
    (∀ (prices : List ℚ) (period : ℕ),
        (calculatePriceDropPctChecked prices period).isSome = true)
    ∧ (∀ volumes : List ℚ, (detectVolumeSpikeChecked volumes).isSome = true)
    ∧ (∀ (highs lows : List ℚ) (period : ℕ),
        adxTrueRange highs lows period ≠ 0 →
        adxPlusDM highs lows period / adxTrueRange highs lows period * 100
          + adxMinusDM highs lows period / adxTrueRange highs lows period * 100 ≠ 0 →
        (calculateADXChecked highs lows period).isSome = true)
    ∧ calculateADXChecked (List.replicate 15 (2 : ℚ)) (List.replicate 15 (1 : ℚ)) 14
        = none := by
  refine ⟨?_, ?_, ?_,
    by norm_num [calculateADXChecked, adxTrueRange, adxPlusDM, adxMinusDM, qdiv?,
      List.range_succ]⟩
  · intro prices period
    unfold calculatePriceDropPctChecked
    split_ifs with h1
    · rfl
    · dsimp only
      split_ifs with h2
      · rfl
      · simp only [qdiv?]
        rw [if_neg h2]
        rfl
  · intro volumes
    unfold detectVolumeSpikeChecked
    split_ifs with h1
    · rfl
    · have h2 : ((volumes.length - 1 : ℕ) : ℚ) ≠ 0 :=
        Nat.cast_ne_zero.mpr (by omega)
      simp [qdiv?, h2]
  · intro highs lows period htr hsum
    unfold calculateADXChecked
    dsimp only
    split_ifs with h1
    · rfl
    · simp [qdiv?, htr, hsum]

/-- C2 witness: the guarded divisions instantiated at concrete series, and
the guarded branch of calculateADX succeeding on a strictly rising series. -/
theorem C2_witness :
    (calculatePriceDropPctChecked [(1 : ℚ), 2] 1).isSome = true
    ∧ (detectVolumeSpikeChecked [(1 : ℚ), 2]).isSome = true
    ∧ (calculateADXChecked adxRisingSeries adxRisingSeries 14).isSome = true :=
  ⟨C2_amended_holds.1 [(1 : ℚ), 2] 1, C2_amended_holds.2.1 [(1 : ℚ), 2],
   C2_amended_holds.2.2.1 adxRisingSeries adxRisingSeries 14
     (by norm_num [adxRisingSeries, adxTrueRange, List.range_succ])
     (by norm_num [adxRisingSeries, adxTrueRange, adxPlusDM, adxMinusDM,
       List.range_succ])⟩

/-- C8: a candle window shorter than 50 yields the all-zero indicator set
(every numeric field 0 and VolumeSpike false) for every arrival order, with
no error raised. -/
theorem C8_allzero (candles : List Candle) (arrivals : List IndicatorResult)
    (h : candles.length < 50) :
    calcIndicatorsFromCandles candles arrivals
      = ({ macd := 0, signalLine := 0, ema12 := 0, ema26 := 0, ema200 := 0,
           rsi := 0, adx := 0, priceDropPct12h := 0, volumeSpike := false,
           currentPrice := 0, averageVolume := 0, lastVolume := 0 }, false) := by
  unfold calcIndicatorsFromCandles
  rw [if_pos h]

/-- C8 witness: the all-zero result on the empty candle window. -/
theorem C8_witness :
    ([] : List Candle).length < 50
    ∧ calcIndicatorsFromCandles [] []
        = ({ macd := 0, signalLine := 0, ema12 := 0, ema26 := 0, ema200 := 0,
             rsi := 0, adx := 0, priceDropPct12h := 0, volumeSpike := false,
             currentPrice := 0, averageVolume := 0, lastVolume := 0 }, false) :=
  ⟨by decide, C8_allzero [] [] (by decide)⟩

/-- Helper: the retry loop performs at most as many attempts as it is
allowed iterations. -/
theorem webhookAttempts_le (fails : ℕ → Bool) :
    ∀ (r a : ℕ), (webhookAttempts fails a r).1 ≤ r := by
  intro r
  induction r with
  | zero => intro a; simp [webhookAttempts]
  | succ n ih =>
    intro a
    simp only [webhookAttempts]
    split_ifs with h1 h2
    · simp
    · simp
    · simpa using Nat.succ_le_succ (ih (a + 1))

/-- Helper: when every attempt fails, the loop uses every allowed iteration,
waits 1s * 2^attempt between consecutive attempts, and gives up. -/
theorem webhookAttempts_allFail (fails : ℕ → Bool) (h : ∀ i, fails i = true) :
    ∀ (r a : ℕ), webhookAttempts fails a (r + 1)
      = (r + 1, (List.range r).map (fun i => 2 ^ (a + i)), false) := by
  intro r
  induction r with
  | zero => intro a; simp [webhookAttempts, h a]
  | succ n ih =>
    intro a
    have step : webhookAttempts fails a (n + 1 + 1)
        = if fails a = false then (1, [], true)
          else if n + 1 = 0 then (1, [], false)
          else ((webhookAttempts fails (a + 1) (n + 1)).1 + 1,
                2 ^ a :: (webhookAttempts fails (a + 1) (n + 1)).2.1,
                (webhookAttempts fails (a + 1) (n + 1)).2.2) := rfl
    rw [step, h a, ih (a + 1)]
    simp [List.range_succ_eq_map, List.map_map]
    omega

/-- C6: the retry loop of SendWebhook performs at most maxRetries+1 attempts
with a delay of 1s * 2^attempt between consecutive attempts; a target that
fails the first 2 attempts and succeeds on the 3rd (maxRetries = 3) is
called exactly 3 times with delays of 1s then 2s and delivery succeeds; a
target that always fails is called exactly maxRetries+1 times after which
delivery fails and the event is dropped. -/
theorem C6_webhook_retries :
    sendWebhookRun 3 (fun i => decide (i < 2)) = (3, [1, 2], true)
    ∧ (∀ (maxRetries : ℕ) (fails : ℕ → Bool), (∀ i, fails i = true) →
        sendWebhookRun maxRetries fails
          = (maxRetries + 1, (List.range maxRetries).map (fun i => 2 ^ i), false))
    ∧ ∀ (maxRetries : ℕ) (fails : ℕ → Bool),
        (sendWebhookRun maxRetries fails).1 ≤ maxRetries + 1 := by
  refine ⟨by decide, ?_, ?_⟩
  · intro m fails h
    have hx := webhookAttempts_allFail fails h m 0
    simpa [sendWebhookRun] using hx
  · intro m fails
    exact webhookAttempts_le fails (m + 1) 0

/-- C6 witness: the always-failing target and the attempt bound instantiated
at maxRetries = 3. -/
theorem C6_witness :
    sendWebhookRun 3 (fun _ => true) = (4, [1, 2, 4], false)
    ∧ (sendWebhookRun 5 (fun _ => true)).1 ≤ 6 := by
  constructor
  · have hx := C6_webhook_retries.2.1 3 (fun _ => true) (fun _ => rfl)
    simpa [List.range_succ] using hx
  · exact C6_webhook_retries.2.2 5 (fun _ => true)

/-- Helper: the trend label of determineTrendState characterized by the two
7.0 thresholds, bearish checked first. -/
theorem trendLabel_characterization (ind : TechnicalIndicators) :
    (determineTrendState ind = "bearish" ↔ 7 ≤ calculateBearishScore ind)
    ∧ (determineTrendState ind = "bullish"
        ↔ (calculateBearishScore ind < 7 ∧ 7 ≤ calculateBullishScore ind))
    ∧ (determineTrendState ind = "neutral"
        ↔ (calculateBearishScore ind < 7 ∧ calculateBullishScore ind < 7)) := by
  have e7 : (7.0 : ℚ) = 7 := by norm_num
  unfold determineTrendState
  rw [e7]
  split_ifs with h1 h2
  · exact ⟨iff_of_true rfl h1,
      iff_of_false (by decide) (fun hc => absurd h1 (not_le.mpr hc.1)),
      iff_of_false (by decide) (fun hc => absurd h1 (not_le.mpr hc.1))⟩
  · exact ⟨iff_of_false (by decide) h1,
      iff_of_true rfl ⟨not_le.mp h1, h2⟩,
      iff_of_false (by decide) (fun hc => absurd h2 (not_le.mpr hc.2))⟩
  · exact ⟨iff_of_false (by decide) h1,
      iff_of_false (by decide) (fun hc => h2 hc.2),
      iff_of_true rfl ⟨not_le.mp h1, not_le.mp h2⟩⟩

/-- C7: the trend label is bearish exactly when the bearish score reaches
7.0, bullish exactly when the bearish score is below 7.0 and the bullish
score reaches 7.0, and neutral otherwise; label and triggers are pure
functions of the indicator set, so identical indicator sets always yield
identical label and triggers. -/
theorem C7_pure_threshold :
    (∀ ind : TechnicalIndicators,
      (determineTrendState ind = "bearish" ↔ 7 ≤ calculateBearishScore ind)
      ∧ (determineTrendState ind = "bullish"
          ↔ (calculateBearishScore ind < 7 ∧ 7 ≤ calculateBullishScore ind))
      ∧ (determineTrendState ind = "neutral"
          ↔ (calculateBearishScore ind < 7 ∧ calculateBullishScore ind < 7)))
    ∧ ∀ (i j : TechnicalIndicators), i = j →
        determineTrendState i = determineTrendState j
        ∧ calculateTriggers i (determineTrendState i)
          = calculateTriggers j (determineTrendState j) := by
  refine ⟨trendLabel_characterization, ?_⟩
  intro i j h
  subst h
  exact ⟨rfl, rfl⟩

/-- C7 witness: the characterization and the purity statement instantiated
at a concrete indicator set. -/
theorem C7_witness :
    (determineTrendState dipNeutralInd = "neutral"
      ↔ (calculateBearishScore dipNeutralInd < 7 ∧ calculateBullishScore dipNeutralInd < 7))
    ∧ determineTrendState dipNeutralInd = determineTrendState dipNeutralInd :=
  ⟨(C7_pure_threshold.1 dipNeutralInd).2.2,
   (C7_pure_threshold.2 dipNeutralInd dipNeutralInd rfl).1⟩

/-- Helper: when the immediate dip path does not fire (no dip detected, or
its 5 minute cooldown active), detectTrendChange reduces to the trend
transition logic. -/
theorem detectTrendChange_noDip (st : TrendState) (now : ℚ) (ind : TechnicalIndicators)
    (h : (detectImmediateDip ind).1 = false ∨ now - st.lastSignalTime < 5 * 60) :
    detectTrendChange st now ind
      = trendChangeStep st now ind (determineTrendState ind) := by
  unfold detectTrendChange
  rcases h with h | h
  · simp [h]
  · by_cases hd : (detectImmediateDip ind).1 = true <;> simp [hd, h]

/-- Helper: in a non-neutral stored state, a neutral-labelled evaluation is
a no-op of the trend transition logic. -/
theorem trendChangeStep_neutral (st : TrendState) (now : ℚ) (ind : TechnicalIndicators)
    (h : st.lastTrendState ≠ "neutral") :
    trendChangeStep st now ind "neutral" = ⟨false, "neutral", [], st⟩ := by
  unfold trendChangeStep
  rw [if_neg h, if_neg (fun hc => hc.2 rfl)]

/-- C3 counterexample: in stored state bullish, the evaluation of
dipNeutralInd has computed trend label neutral, yet it emits a bearish
SignalEvent through the immediate dip path and advances lastSignalTime,
refuting the claim that neutral-labelled evaluations never change the stored
state and never emit. -/
theorem C3_counterexample :
    determineTrendState dipNeutralInd = "neutral"
    ∧ (detectTrendChange ⟨"bullish", 0⟩ 600 dipNeutralInd).emitted = true
    ∧ (detectTrendChange ⟨"bullish", 0⟩ 600 dipNeutralInd).state ≠ ⟨"bullish", 0⟩ := by
  refine ⟨?_, ?_, ?_⟩ <;>
    norm_num [detectTrendChange, detectImmediateDip, trendChangeStep, determineTrendState,
      calculateBearishScore, calculateBullishScore,
      bearishMACDComponent, bearishEMAComponent, bearishRSIComponent, bearishPriceComponent,
      bearishEMA200Component, bearishADXComponent, bearishVolumeComponent,
      bullishMACDComponent, bullishEMAComponent, bullishRSIComponent, bullishPriceComponent,
      bullishEMA200Component, bullishADXComponent, bullishVolumeComponent,
      dipScore, dipTriggers, dipPriceBlock, dipRSIBlock, dipMACDBlock, dipEMABlock,
      dipVolumeBlock, dipADXBlock, dipEMA200Block, dipNeutralInd]

/-- C3 (amended): once the state machine is in a non-neutral state, an
evaluation whose computed trend label is neutral and on which the immediate
dip path does not fire (no dip detected, or within the 5 minute dip
cooldown) leaves the stored state unchanged and emits no SignalEvent; the
immediate dip path, however, can emit from a neutral-labelled evaluation. -/
theorem C3_amended_holds (st : TrendState) (now : ℚ) (ind : TechnicalIndicators)
    (h1 : st.lastTrendState ≠ "neutral")
    (h2 : determineTrendState ind = "neutral")
    (h3 : (detectImmediateDip ind).1 = false ∨ now - st.lastSignalTime < 5 * 60) :
    detectTrendChange st now ind = ⟨false, "neutral", [], st⟩ := by
  rw [detectTrendChange_noDip st now ind h3, h2,
    trendChangeStep_neutral st now ind h1]

/-- C3 witness: the amended no-op instantiated at the all-zero indicator set
in stored state bullish. -/
theorem C3_witness :
    detectTrendChange ⟨"bullish", (0 : ℚ)⟩ 200 ({} : TechnicalIndicators)
      = ⟨false, "neutral", [], ⟨"bullish", 0⟩⟩ :=
  C3_amended_holds ⟨"bullish", 0⟩ 200 {} (by decide)
    (by norm_num [determineTrendState, calculateBearishScore, calculateBullishScore,
      bearishMACDComponent, bearishEMAComponent, bearishRSIComponent, bearishPriceComponent,
      bearishEMA200Component, bearishADXComponent, bearishVolumeComponent,
      bullishMACDComponent, bullishEMAComponent, bullishRSIComponent, bullishPriceComponent,
      bullishEMA200Component, bullishADXComponent, bullishVolumeComponent])
    (Or.inl (by norm_num [detectImmediateDip, dipScore, dipPriceBlock, dipRSIBlock,
      dipMACDBlock, dipEMABlock, dipVolumeBlock, dipADXBlock, dipEMA200Block]))

/-- C4 counterexample: in stored state bullish, the evaluation of
dipBearishInd has non-neutral label bearish and happens 6 minutes after the
last signal (inside the 8 minute cooldown), yet a SignalEvent is emitted
through the immediate dip path and lastSignalTime is advanced, refuting the
claim that such an evaluation is fully suppressed. -/
theorem C4_counterexample :
    determineTrendState dipBearishInd = "bearish"
    ∧ ((360 : ℚ) - 0 < 8 * 60)
    ∧ (detectTrendChange ⟨"bullish", 0⟩ 360 dipBearishInd).emitted = true
    ∧ (detectTrendChange ⟨"bullish", 0⟩ 360 dipBearishInd).state.lastSignalTime = 360 := by
  refine ⟨?_, by norm_num, ?_, ?_⟩ <;>
    norm_num [detectTrendChange, detectImmediateDip, trendChangeStep, determineTrendState,
      calculateBearishScore, calculateBullishScore,
      bearishMACDComponent, bearishEMAComponent, bearishRSIComponent, bearishPriceComponent,
      bearishEMA200Component, bearishADXComponent, bearishVolumeComponent,
      bullishMACDComponent, bullishEMAComponent, bullishRSIComponent, bullishPriceComponent,
      bullishEMA200Component, bullishADXComponent, bullishVolumeComponent,
      dipScore, dipTriggers, dipPriceBlock, dipRSIBlock, dipMACDBlock, dipEMABlock,
      dipVolumeBlock, dipADXBlock, dipEMA200Block, dipBearishInd]

/-- C4 (amended): provided the immediate dip path does not fire (no dip, or
within the 5 minute dip cooldown), a transition between distinct non-neutral
states inside the 8 minute cooldown is suppressed with no event, label or
lastSignalTime change; and an evaluation whose label equals the stored
bearish state emits nothing and changes nothing, so two qualifying bearish
evaluations less than 8 minutes apart emit only one event when the second
does not trigger the dip path. -/
theorem C4_amended_holds :
    (∀ (st : TrendState) (now : ℚ) (ind : TechnicalIndicators),
      st.lastTrendState ≠ "neutral" →
      determineTrendState ind ≠ "neutral" →
      determineTrendState ind ≠ st.lastTrendState →
      now - st.lastSignalTime < 8 * 60 →
      ((detectImmediateDip ind).1 = false ∨ now - st.lastSignalTime < 5 * 60) →
      detectTrendChange st now ind = ⟨false, determineTrendState ind, [], st⟩)
    ∧ (∀ (st : TrendState) (now : ℚ) (ind : TechnicalIndicators),
      st.lastTrendState = "bearish" →
      determineTrendState ind = "bearish" →
      ((detectImmediateDip ind).1 = false ∨ now - st.lastSignalTime < 5 * 60) →
      detectTrendChange st now ind = ⟨false, "bearish", [], st⟩) := by
  constructor
  · intro st now ind h1 h2 h3 h4 h5
    rw [detectTrendChange_noDip st now ind h5]
    unfold trendChangeStep
    rw [if_neg h1, if_pos ⟨h3, h2⟩, if_pos h4]
  · intro st now ind h1 h2 h3
    rw [detectTrendChange_noDip st now ind h3, h2]
    unfold trendChangeStep
    rw [h1, if_neg (by decide), if_neg (fun hc => hc.1 rfl)]

/-- C4 witness: the amended suppression instantiated at a bearish-labelled
indicator set with no dip, 6 minutes after the last signal, in stored state
bullish. -/
theorem C4_witness :
    detectTrendChange ⟨"bullish", (0 : ℚ)⟩ 360 bearishNoDipInd
      = ⟨false, determineTrendState bearishNoDipInd, [], ⟨"bullish", 0⟩⟩ :=
  C4_amended_holds.1 ⟨"bullish", 0⟩ 360 bearishNoDipInd (by decide)
    (by
      norm_num [determineTrendState, calculateBearishScore, calculateBullishScore,
        bearishMACDComponent, bearishEMAComponent, bearishRSIComponent, bearishPriceComponent,
        bearishEMA200Component, bearishADXComponent, bearishVolumeComponent,
        bullishMACDComponent, bullishEMAComponent, bullishRSIComponent, bullishPriceComponent,
        bullishEMA200Component, bullishADXComponent, bullishVolumeComponent,
        abs_of_nonneg, abs_of_nonpos, bearishNoDipInd]
      decide)
    (by
      norm_num [determineTrendState, calculateBearishScore, calculateBullishScore,
        bearishMACDComponent, bearishEMAComponent, bearishRSIComponent, bearishPriceComponent,
        bearishEMA200Component, bearishADXComponent, bearishVolumeComponent,
        bullishMACDComponent, bullishEMAComponent, bullishRSIComponent, bullishPriceComponent,
        bullishEMA200Component, bullishADXComponent, bullishVolumeComponent,
        abs_of_nonneg, abs_of_nonpos, bearishNoDipInd]
      decide)
    (by norm_num)
    (Or.inl (by norm_num [detectImmediateDip, dipScore, dipPriceBlock, dipRSIBlock,
      dipMACDBlock, dipEMABlock, dipVolumeBlock, dipADXBlock, dipEMA200Block,
      abs_of_nonneg, abs_of_nonpos, bearishNoDipInd]))

/-- C5: whenever the dip score reaches 6.0 and at least 5 minutes have
elapsed since lastSignalTime, detectTrendChange emits a bearish SignalEvent
carrying the dip triggers and sets lastSignalTime to now while leaving the
tracked trend label unchanged; within 5 minutes of lastSignalTime the dip
path contributes nothing: the call behaves exactly as the dip-free trend
transition logic. -/
theorem C5_dip_path :
    (∀ (st : TrendState) (now : ℚ) (ind : TechnicalIndicators),
      dipScore ind ≥ 6.0 →
      5 * 60 ≤ now - st.lastSignalTime →
      detectTrendChange st now ind
        = ⟨true, "bearish", dipTriggers ind, ⟨st.lastTrendState, now⟩⟩)
    ∧ (∀ (st : TrendState) (now : ℚ) (ind : TechnicalIndicators),
      now - st.lastSignalTime < 5 * 60 →
      detectTrendChange st now ind
        = trendChangeStep st now ind (determineTrendState ind)) := by
  constructor
  · intro st now ind h1 h2
    have hd : detectImmediateDip ind = (true, dipTriggers ind) := by
      unfold detectImmediateDip
      rw [if_pos h1]
    unfold detectTrendChange
    rw [hd]
    simp [not_lt.mpr h2]
  · intro st now ind h
    exact detectTrendChange_noDip st now ind (Or.inr h)

/-- C5 witness: the dip emission instantiated at dipNeutralInd, 10 minutes
after the last signal, in stored state bullish: a bearish event with the dip
triggers, lastSignalTime advanced, label untouched. -/
theorem C5_witness :
    detectTrendChange ⟨"bullish", (0 : ℚ)⟩ 600 dipNeutralInd
      = ⟨true, "bearish", dipTriggers dipNeutralInd, ⟨"bullish", 600⟩⟩ :=
  C5_dip_path.1 ⟨"bullish", 0⟩ 600 dipNeutralInd
    (by norm_num [dipScore, dipPriceBlock, dipRSIBlock, dipMACDBlock, dipEMABlock,
      dipVolumeBlock, dipADXBlock, dipEMA200Block, dipNeutralInd])
    (by norm_num)

/-- C1 counterexample: the two arrival orders c1OrderA and c1OrderB carry
the same multiset of producer results, yet the stream processor returns
different outcomes: order A early-exits after four results with an
incomplete indicator set (rsi still 0), order B processes everything and
reports no bearish signal, refuting arrival-order independence. -/
theorem C1_counterexample :
    List.Perm c1OrderA c1OrderB
    ∧ aggregateResults c1Init 0 c1OrderA ≠ aggregateResults c1Init 0 c1OrderB := by
  constructor
  · show List.Perm
      ([IndicatorResult.macd 1, IndicatorResult.signalLine 0, IndicatorResult.ema12 2,
        IndicatorResult.ema26 1]
        ++ IndicatorResult.rsi 50
          :: [IndicatorResult.ema200 0, IndicatorResult.adx 0,
              IndicatorResult.priceDropPct12h 0, IndicatorResult.volumeSpike false,
              IndicatorResult.averageVolume 1, IndicatorResult.lastVolume 1])
      (IndicatorResult.rsi 50
        :: ([IndicatorResult.macd 1, IndicatorResult.signalLine 0, IndicatorResult.ema12 2,
             IndicatorResult.ema26 1]
            ++ [IndicatorResult.ema200 0, IndicatorResult.adx 0,
                IndicatorResult.priceDropPct12h 0, IndicatorResult.volumeSpike false,
                IndicatorResult.averageVolume 1, IndicatorResult.lastVolume 1]))
    exact List.perm_middle
  · norm_num [c1OrderA, c1OrderB, c1Init, aggregateResults, applyResult,
      checkBearishSignals]

/-- C1 (amended): the stream processor evaluates the early-exit decision as
soon as any four results have arrived, whether or not they include the
{MACD, EMA12, EMA26, RSI} quartet, and returns the partial set at once when
the bearish check fires; consequently the early-exit outcome is not
arrival-order independent: there are two arrival orders of one and the same
result multiset with different outcomes. -/
theorem C1_amended_holds :
    (∀ (ind : TechnicalIndicators) (completed : ℕ) (r : IndicatorResult)
        (rest : List IndicatorResult),
      4 ≤ (if completed < 8 then completed + 1 else completed) →
      (checkBearishSignals (applyResult ind r)).1 = true →
      aggregateResults ind completed (r :: rest) = (applyResult ind r, true))
    ∧ ∃ (init : TechnicalIndicators) (ordA ordB : List IndicatorResult),
        List.Perm ordA ordB
        ∧ aggregateResults init 0 ordA ≠ aggregateResults init 0 ordB := by
  constructor
  · intro ind completed r rest h1 h2
    have step : aggregateResults ind completed (r :: rest)
        = if 4 ≤ (if completed < 8 then completed + 1 else completed)
              ∧ (checkBearishSignals (applyResult ind r)).1 = true
          then (applyResult ind r, true)
          else aggregateResults (applyResult ind r)
                 (if completed < 8 then completed + 1 else completed) rest := rfl
    rw [step, if_pos ⟨h1, h2⟩]
  · refine ⟨c1Init, c1OrderA, c1OrderB, ?_, ?_⟩
    · show List.Perm
        ([IndicatorResult.macd 1, IndicatorResult.signalLine 0, IndicatorResult.ema12 2,
          IndicatorResult.ema26 1]
          ++ IndicatorResult.rsi 50
            :: [IndicatorResult.ema200 0, IndicatorResult.adx 0,
                IndicatorResult.priceDropPct12h 0, IndicatorResult.volumeSpike false,
                IndicatorResult.averageVolume 1, IndicatorResult.lastVolume 1])
        (IndicatorResult.rsi 50
          :: ([IndicatorResult.macd 1, IndicatorResult.signalLine 0, IndicatorResult.ema12 2,
               IndicatorResult.ema26 1]
              ++ [IndicatorResult.ema200 0, IndicatorResult.adx 0,
                  IndicatorResult.priceDropPct12h 0, IndicatorResult.volumeSpike false,
                  IndicatorResult.averageVolume 1, IndicatorResult.lastVolume 1]))
      exact List.perm_middle
    · norm_num [c1OrderA, c1OrderB, c1Init, aggregateResults, applyResult,
        checkBearishSignals]

/-- C1 witness: the early-exit step instantiated after three prior results
with an rsi result of 0 arriving fourth, which alone satisfies the bearish
check. -/
theorem C1_witness :
    aggregateResults c1Init 3 [IndicatorResult.rsi 0]
      = (applyResult c1Init (IndicatorResult.rsi 0), true) :=
  C1_amended_holds.1 c1Init 3 (IndicatorResult.rsi 0) [] (by norm_num)
    (by norm_num [checkBearishSignals, applyResult, c1Init])

/-- Helper: the aggregated indicator set keeps a zero PriceDropPct12h field
whenever the field starts at 0 and every priceDropPct12h result in the
arrival list carries the value 0, for every arrival order and also under
early exit. -/
theorem aggregate_priceDrop_zero :
    ∀ (arrivals : List IndicatorResult) (ind : TechnicalIndicators) (completed : ℕ),
      ind.priceDropPct12h = 0 →
      (∀ r ∈ arrivals, ∀ v, r = IndicatorResult.priceDropPct12h v → v = 0) →
      ((aggregateResults ind completed arrivals).1).priceDropPct12h = 0 := by
  intro arrivals
  induction arrivals with
  | nil =>
    intro ind completed h _
    simpa [aggregateResults] using h
  | cons r rest ih =>
    intro ind completed h hall
    have h2 : (applyResult ind r).priceDropPct12h = 0 := by
      cases r with
      | priceDropPct12h v =>
        simpa [applyResult] using hall _ (List.mem_cons_self _ _) v rfl
      | macd v => simpa [applyResult] using h
      | signalLine v => simpa [applyResult] using h
      | ema12 v => simpa [applyResult] using h
      | ema26 v => simpa [applyResult] using h
      | ema200 v => simpa [applyResult] using h
      | rsi v => simpa [applyResult] using h
      | adx v => simpa [applyResult] using h
      | volumeSpike b => simpa [applyResult] using h
      | averageVolume v => simpa [applyResult] using h
      | lastVolume v => simpa [applyResult] using h
    have step : aggregateResults ind completed (r :: rest)
        = if 4 ≤ (if completed < 8 then completed + 1 else completed)
              ∧ (checkBearishSignals (applyResult ind r)).1 = true
          then (applyResult ind r, true)
          else aggregateResults (applyResult ind r)
                 (if completed < 8 then completed + 1 else completed) rest := rfl
    rw [step]
    by_cases hcond : (4 ≤ (if completed < 8 then completed + 1 else completed)
        ∧ (checkBearishSignals (applyResult ind r)).1 = true)
    · rw [if_pos hcond]
      exact h2
    · rw [if_neg hcond]
      exact ih (applyResult ind r) _ h2
        (fun x hx v hv => hall x (List.mem_cons_of_mem _ hx) v hv)

/-- Helper: with a zero PriceDropPct12h field, every price-change based
score component is 0 and the price-change trigger appears in neither the
bearish nor the bullish trigger list. -/
theorem priceComponents_vanish (ind : TechnicalIndicators)
    (h : ind.priceDropPct12h = 0) :
    bearishPriceComponent ind = 0 ∧ bullishPriceComponent ind = 0
    ∧ bearishVolumeComponent ind = 0 ∧ bullishVolumeComponent ind = 0
    ∧ dipPriceBlock ind = (0, []) ∧ dipVolumeBlock ind = (0, [])
    ∧ "PRICE_TREND_REVERSAL" ∉ calculateTriggers ind "bearish"
    ∧ "PRICE_TREND_REVERSAL" ∉ calculateTriggers ind "bullish" := by
  refine ⟨?_, ?_, ?_, ?_, ?_, ?_, ?_, ?_⟩
  · simp [bearishPriceComponent, h]
  · simp [bullishPriceComponent, h]
  · norm_num [bearishVolumeComponent, h]
  · norm_num [bullishVolumeComponent, h]
  · norm_num [dipPriceBlock, h]
  · norm_num [dipVolumeBlock, h]
  · rw [calculateTriggers, if_pos rfl]
    norm_num [h]
    exact ⟨fun _ _ => by decide, fun _ => by decide, fun _ => by decide,
      fun _ _ => by decide⟩
  · rw [calculateTriggers, if_neg (by decide), if_pos rfl]
    norm_num [h]
    exact ⟨fun _ _ => by decide, fun _ => by decide, fun _ => by decide,
      fun _ _ => by decide⟩

/-- C10: for every candle window of at most 144 candles (in particular the
144 five-minute candles the lightweight background path requests through
GetSignalLightweight) and every arrival order of correctly computed producer
results, the aggregated PriceDropPct12h is 0, every price-change based score
component of the bearish, bullish and dip scores is 0, and the
PRICE_TREND_REVERSAL trigger cannot appear. -/
theorem C10_lightweight_priceDrop :
    ∀ (candles : List Candle) (arrivals : List IndicatorResult),
      candles.length ≤ 144 →
      (∀ r ∈ arrivals,
        resultCorrect (candles.map (fun c => c.close)) (candles.map (fun c => c.high))
          (candles.map (fun c => c.low)) (candles.map (fun c => c.volume)) r) →
      ((calcIndicatorsFromCandles candles arrivals).1).priceDropPct12h = 0
      ∧ bearishPriceComponent (calcIndicatorsFromCandles candles arrivals).1 = 0
      ∧ bullishPriceComponent (calcIndicatorsFromCandles candles arrivals).1 = 0
      ∧ bearishVolumeComponent (calcIndicatorsFromCandles candles arrivals).1 = 0
      ∧ bullishVolumeComponent (calcIndicatorsFromCandles candles arrivals).1 = 0
      ∧ dipPriceBlock (calcIndicatorsFromCandles candles arrivals).1 = (0, [])
      ∧ dipVolumeBlock (calcIndicatorsFromCandles candles arrivals).1 = (0, [])
      ∧ "PRICE_TREND_REVERSAL"
          ∉ calculateTriggers (calcIndicatorsFromCandles candles arrivals).1 "bearish"
      ∧ "PRICE_TREND_REVERSAL"
          ∉ calculateTriggers (calcIndicatorsFromCandles candles arrivals).1 "bullish" := by
  intro candles arrivals hlen hcorrect
  have hdrop : ((calcIndicatorsFromCandles candles arrivals).1).priceDropPct12h = 0 := by
    unfold calcIndicatorsFromCandles
    split_ifs with hshort
    · rfl
    · dsimp only
      apply aggregate_priceDrop_zero
      · rfl
      · intro r hr v hv
        have hc := hcorrect r hr
        rw [hv] at hc
        have hc2 : v = calculatePriceDropPct (candles.map (fun c => c.close)) 144 := hc
        rw [hc2]
        unfold calculatePriceDropPct
        rw [if_pos (by simp only [List.length_map]; omega)]
  obtain ⟨a, b, c, d, e, f, g, i⟩ := priceComponents_vanish _ hdrop
  exact ⟨hdrop, a, b, c, d, e, f, g, i⟩

/-- C10 witness: the zero price change and vanishing price components
instantiated at a 50 candle flat window with an empty arrival list. -/
theorem C10_witness :
    ((calcIndicatorsFromCandles flatCandles []).1).priceDropPct12h = 0
    ∧ bearishPriceComponent (calcIndicatorsFromCandles flatCandles []).1 = 0
    ∧ bullishPriceComponent (calcIndicatorsFromCandles flatCandles []).1 = 0
    ∧ bearishVolumeComponent (calcIndicatorsFromCandles flatCandles []).1 = 0
    ∧ bullishVolumeComponent (calcIndicatorsFromCandles flatCandles []).1 = 0
    ∧ dipPriceBlock (calcIndicatorsFromCandles flatCandles []).1 = (0, [])
    ∧ dipVolumeBlock (calcIndicatorsFromCandles flatCandles []).1 = (0, [])
    ∧ "PRICE_TREND_REVERSAL"
        ∉ calculateTriggers (calcIndicatorsFromCandles flatCandles []).1 "bearish"
    ∧ "PRICE_TREND_REVERSAL"
        ∉ calculateTriggers (calcIndicatorsFromCandles flatCandles []).1 "bullish" :=
  C10_lightweight_priceDrop flatCandles [] (by simp [flatCandles]) (by simp)
